import Mathlib

/-!
# Verification of `interface_openstack_integration` (requires side)

Shallow embedding of `src/ops/ops/interface_openstack_integration/model.py`
(the pydantic v1 `Data` model and its `cloud_config` rendering) and
`src/ops/ops/interface_openstack_integration/requires.py` (the
`OpenstackIntegrationRequirer` façade), together with proofs about the
validation and rendering pipeline.

Modelling conventions:
* Relation databag values are strings holding JSON text; pydantic's
  `Json[...]` fields decode that JSON layer and then coerce the decoded
  value.  We model a raw databag entry directly as the decoded JSON value
  (`JVal`), absent key as `none`.  (The textual JSON parse itself is not
  modelled; no claim concerns syntactically ill-formed JSON.)
* `Except String` stands in for pydantic's `ValidationError`: `.error`
  means construction raises `ValidationError` (pydantic collects all field
  errors, we short-circuit at the first; only success/failure and the
  failing field matter here, never the message text).
* Field coercions follow pydantic v1 semantics: a field typed
  `Optional[...]` defaults to `None` when the key is absent; an explicit
  JSON `null` for a non-optional field is "none is not an allowed value";
  `str` coercion also stringifies JSON numbers and booleans; `bool`
  coercion accepts the usual v1 truth-word strings and 0/1.
-/

/-- A decoded JSON value, as it appears after pydantic's `Json[...]`
decoding step.  `jmap` carries a string-to-string object (the only object
shape used, for `proxy_config`). -/
inductive JVal where
  | null : JVal
  | jbool : Bool → JVal
  | jint : Int → JVal
  | jstr : String → JVal
  | jmap : List (String × String) → JVal
deriving Repr, DecidableEq

/-- The raw relation databag restricted to the declared field names of the
pydantic `Data` model: each declared key is either absent (`none`) or
present with a JSON-decoded value.  (pydantic v1 ignores undeclared keys.) -/
structure RawMap where
  auth_url : Option JVal := none
  password : Option JVal := none
  project_domain_name : Option JVal := none
  project_name : Option JVal := none
  region : Option JVal := none
  username : Option JVal := none
  user_domain_name : Option JVal := none
  bs_version : Option JVal := none
  domain_id : Option JVal := none
  domain_name : Option JVal := none
  endpoint_tls_ca : Option JVal := none
  floating_network_id : Option JVal := none
  has_octavia : Option JVal := none
  ignore_volume_az : Option JVal := none
  internal_lb : Option JVal := none
  lb_enabled : Option JVal := none
  lb_method : Option JVal := none
  project_id : Option JVal := none
  project_domain_id : Option JVal := none
  proxy_config : Option JVal := none
  manage_security_groups : Option JVal := none
  subnet_id : Option JVal := none
  trust_device_path : Option JVal := none
  user_domain_id : Option JVal := none
  version : Option JVal := none
deriving Repr, DecidableEq

/-- pydantic v1 `str` coercion of a decoded JSON value (`str_validator`):
strings pass through, numbers and booleans are stringified (`bool` is an
`int` subclass in Python, so `True` renders as `"True"`), objects fail. -/
def strCoerce (v : JVal) : Except String String :=
  match v with
  | .jstr s => .ok s
  | .jint n => .ok (toString n)
  | .jbool b => .ok (if b then "True" else "False")
  | .null => .error "none is not an allowed value"
  | .jmap _ => .error "str type expected"

/-- Parse a required `Json[str]` field (also `Json[SecretStr]`, whose
underlying validation is the same `str` coercion): the key must be present
and must not decode to JSON `null`. -/
def requiredStr (o : Option JVal) : Except String String :=
  match o with
  | none => .error "field required"
  | some v => strCoerce v

/-- Parse an optional `Json[Optional[str]]` field: absent key defaults to
`None`; explicit JSON `null` is `None`; otherwise `str` coercion. -/
def optStr (o : Option JVal) : Except String (Option String) :=
  match o with
  | none => .ok none
  | some .null => .ok none
  | some v => (strCoerce v).map some

/-- The truth-word strings accepted by pydantic v1 `bool_validator`. -/
def boolTrueWords : List String := ["1", "on", "t", "true", "y", "yes"]

/-- The false-word strings accepted by pydantic v1 `bool_validator`. -/
def boolFalseWords : List String := ["0", "off", "f", "false", "n", "no"]

/-- pydantic v1 `bool` coercion: booleans pass through; the ints 0/1 and
the usual truth-word strings (case-insensitive) coerce; all else fails. -/
def boolCoerce (v : JVal) : Except String Bool :=
  match v with
  | .jbool b => .ok b
  | .jint n => if n = 1 then .ok true else if n = 0 then .ok false
               else .error "value could not be parsed to a boolean"
  | .jstr s =>
      if boolTrueWords.contains s.toLower then .ok true
      else if boolFalseWords.contains s.toLower then .ok false
      else .error "value could not be parsed to a boolean"
  | _ => .error "value could not be parsed to a boolean"

/-- Parse an optional `Json[Optional[bool]]` field. -/
def optBool (o : Option JVal) : Except String (Option Bool) :=
  match o with
  | none => .ok none
  | some .null => .ok none
  | some v => (boolCoerce v).map some

/-- pydantic v1 `int` coercion: ints pass through (a JSON boolean is a
Python `bool`, an `int` subclass, so it coerces 0/1); numeric strings
parse; all else fails. -/
def intCoerce (v : JVal) : Except String Int :=
  match v with
  | .jint n => .ok n
  | .jbool b => .ok (if b then 1 else 0)
  | .jstr s =>
      match s.toInt? with
      | some n => .ok n
      | none => .error "value is not a valid integer"
  | _ => .error "value is not a valid integer"

/-- Parse an optional `Json[Optional[int]]` field (`version`). -/
def optInt (o : Option JVal) : Except String (Option Int) :=
  match o with
  | none => .ok none
  | some .null => .ok none
  | some v => (intCoerce v).map some

/-- Parse the optional `Json[Optional[Dict[str, str]]]` field
(`proxy_config`). -/
def optDict (o : Option JVal) : Except String (Option (List (String × String))) :=
  match o with
  | none => .ok none
  | some .null => .ok none
  | some (.jmap kvs) => .ok (some kvs)
  | some _ => .error "value is not a valid dict"

/-- Whether a character belongs to the standard base64 alphabet
(`A-Z`, `a-z`, `0-9`, `+`, `/`). -/
def isB64Digit (c : Char) : Bool :=
  c.isAlphanum || c = '+' || c = '/'

/-- `base64.b64decode(s, validate=True)` succeeds (CPython strict
validation, empirically characterised): writing `s` as `data ++ pad` where
`data` is the longest prefix of base64-alphabet characters, the rest must
be all `'='`; with `d = data.length` and `p = pad.length`, the string is
valid iff `d = 0 ∧ p = 0`, or `d % 4 = 0` (any trailing padding), or
`d % 4 ∈ {2, 3}` with `p` exactly completing the quad (`p = 4 - d % 4`);
`d % 4 = 1` is always invalid.  Non-ASCII characters fail the alphabet
test, matching the `ValueError` raised before decoding. -/
def validB64 (s : String) : Bool :=
  let cs := s.toList
  let data := cs.takeWhile isB64Digit
  let pad := cs.dropWhile isB64Digit
  let d := data.length
  let p := pad.length
  pad.all (· = '=') &&
    (if d = 0 then p = 0
     else if d % 4 = 0 then true
     else if d % 4 = 1 then false
     else decide (p = 4 - d % 4))

/-- Parse the `endpoint_tls_ca` field: `Json[Optional[str]]` followed by
the `must_be_b64_cert` validator.  pydantic v1 runs the (post) validator
whenever the key is supplied, including when the value decoded to `None`:
there `base64.b64decode(None, validate=True)` raises `TypeError`, which
pydantic converts into a `ValidationError`.  When the key is absent the
default `None` is used and the validator never runs. -/
def parseTlsCa (o : Option JVal) : Except String (Option String) :=
  match o with
  | none => .ok none
  | some v => do
      let s ← optStr (some v)
      match s with
      | none => .error "argument should be a bytes-like object or ASCII string, not NoneType"
      | some str =>
          if validB64 str then .ok (some str)
          else .error "Couldn't find base64 data"

/-- The validated, typed record: pydantic model `Data` from `model.py`.
Field order and optionality follow the class body; every `Optional` field
defaults to `None` in pydantic v1 whether or not `= None` is written. -/
structure Data where
  auth_url : String
  password : String
  project_domain_name : String
  project_name : String
  region : String
  username : String
  user_domain_name : String
  bs_version : Option String
  domain_id : Option String
  domain_name : Option String
  endpoint_tls_ca : Option String
  floating_network_id : Option String
  has_octavia : Option Bool
  ignore_volume_az : Option Bool
  internal_lb : Option Bool
  lb_enabled : Option Bool
  lb_method : Option String
  project_id : Option String
  project_domain_id : Option String
  proxy_config : Option (List (String × String))
  manage_security_groups : Option Bool
  subnet_id : Option String
  trust_device_path : Option Bool
  user_domain_id : Option String
  version : Option Int
deriving Repr, DecidableEq

/-- `Data(**raw)`: parse every declared field of the raw databag in
declaration order; any field failure is a `ValidationError`. -/
def Construct (r : RawMap) : Except String Data := do
  let auth_url ← requiredStr r.auth_url
  let password ← requiredStr r.password
  let project_domain_name ← requiredStr r.project_domain_name
  let project_name ← requiredStr r.project_name
  let region ← requiredStr r.region
  let username ← requiredStr r.username
  let user_domain_name ← requiredStr r.user_domain_name
  let bs_version ← optStr r.bs_version
  let domain_id ← optStr r.domain_id
  let domain_name ← optStr r.domain_name
  let endpoint_tls_ca ← parseTlsCa r.endpoint_tls_ca
  let floating_network_id ← optStr r.floating_network_id
  let has_octavia ← optBool r.has_octavia
  let ignore_volume_az ← optBool r.ignore_volume_az
  let internal_lb ← optBool r.internal_lb
  let lb_enabled ← optBool r.lb_enabled
  let lb_method ← optStr r.lb_method
  let project_id ← optStr r.project_id
  let project_domain_id ← optStr r.project_domain_id
  let proxy_config ← optDict r.proxy_config
  let manage_security_groups ← optBool r.manage_security_groups
  let subnet_id ← optStr r.subnet_id
  let trust_device_path ← optBool r.trust_device_path
  let user_domain_id ← optStr r.user_domain_id
  let version ← optInt r.version
  pure {
    auth_url, password, project_domain_name, project_name, region,
    username, user_domain_name, bs_version, domain_id, domain_name,
    endpoint_tls_ca, floating_network_id, has_octavia, ignore_volume_az,
    internal_lb, lb_enabled, lb_method, project_id, project_domain_id,
    proxy_config, manage_security_groups, subnet_id, trust_device_path,
    user_domain_id, version }

/-- Python truthiness of an `Optional[str]` value: `None` and the empty
string are falsy. -/
def truthyOptStr (o : Option String) : Bool :=
  match o with
  | none => false
  | some s => s ≠ ""

/-- Python truthiness of an `Optional[bool]` value: only `True` is truthy. -/
def truthyOptBool (o : Option Bool) : Bool :=
  match o with
  | none => false
  | some b => b

/-- The `_global` dict built by `Data.cloud_config`, in insertion order.
Every entry is guarded by the Python truthiness of the field (`if
self.auth_url:` etc.), so empty strings are omitted; `password` is a
`SecretStr` whose truthiness is that of the wrapped string, revealed via
`get_secret_value()`. -/
def Data.globalSection (d : Data) : List (String × String) :=
  (if d.auth_url ≠ "" then [("auth-url", d.auth_url)] else []) ++
  (if truthyOptStr d.endpoint_tls_ca then [("ca-file", "/etc/config/endpoint-ca.cert")] else []) ++
  (if d.username ≠ "" then [("username", d.username)] else []) ++
  (if d.password ≠ "" then [("password", d.password)] else []) ++
  (if d.region ≠ "" then [("region", d.region)] else []) ++
  (if truthyOptStr d.domain_id then [("domain-id", d.domain_id.getD "")] else []) ++
  (if truthyOptStr d.domain_name then [("domain-name", d.domain_name.getD "")] else []) ++
  (if truthyOptStr d.project_id then [("tenant-id", d.project_id.getD "")] else []) ++
  (if d.project_name ≠ "" then [("tenant-name", d.project_name)] else []) ++
  (if truthyOptStr d.project_domain_id then [("tenant-domain-id", d.project_domain_id.getD "")] else []) ++
  (if d.project_domain_name ≠ "" then [("tenant-domain-name", d.project_domain_name)] else []) ++
  (if truthyOptStr d.user_domain_id then [("user-domain-id", d.user_domain_id.getD "")] else []) ++
  (if d.user_domain_name ≠ "" then [("user-domain-name", d.user_domain_name)] else [])

/-- The `_loadbalancer` dict built by `Data.cloud_config`, in insertion
order.  `if not self.lb_enabled:` is Python truthiness, so `None` and
`False` both emit `enabled = false`; `self.has_octavia in (True, None)`
emits `use-octavia = true`, the remaining case (`False`) emits
`use-octavia = false` plus `lb-provider = haproxy`. -/
def Data.lbSection (d : Data) : List (String × String) :=
  (if truthyOptBool d.lb_enabled then [] else [("enabled", "false")]) ++
  (if d.has_octavia = some true ∨ d.has_octavia = none then
      [("use-octavia", "true")]
   else
      [("use-octavia", "false"), ("lb-provider", "haproxy")]) ++
  (if truthyOptStr d.subnet_id then [("subnet-id", d.subnet_id.getD "")] else []) ++
  (if truthyOptStr d.floating_network_id then [("floating-network-id", d.floating_network_id.getD "")] else []) ++
  (if truthyOptStr d.lb_method then [("lb-method", d.lb_method.getD "")] else []) ++
  (if truthyOptBool d.internal_lb then [("internal-lb", "true")] else []) ++
  (if truthyOptBool d.manage_security_groups then [("manage-security-groups", "true")] else [])

/-- The `_blockstorage` dict built by `Data.cloud_config`, in insertion
order. -/
def Data.bsSection (d : Data) : List (String × String) :=
  (if truthyOptStr d.bs_version then [("bs-version", d.bs_version.getD "")] else []) ++
  (if truthyOptBool d.trust_device_path then [("trust-device-path", "true")] else []) ++
  (if truthyOptBool d.ignore_volume_az then [("ignore-volume-az", "true")] else [])

/-- One `key = value` line as written by `configparser.ConfigParser.write`:
the default delimiter is `" = "`, embedded newlines in the value are
continued with a tab, and the line ends in a newline.  `before_write` of
`BasicInterpolation` is the identity, so a value that survived `set` (see
`interpOk`) is written verbatim, escaped `%%` included. -/
def writeKV (kv : String × String) : String :=
  kv.1 ++ " = " ++ (kv.2.replace "\n" "\n\t") ++ "\n"

/-- One section as written by `configparser.ConfigParser.write`: the
bracketed header line, the `key = value` lines in insertion order, then a
blank line. -/
def writeSection (name : String) (kvs : List (String × String)) : String :=
  "[" ++ name ++ "]\n" ++ String.join (kvs.map writeKV) ++ "\n"

/-- `value.replace('%%', '')`: drop escaped percent pairs, scanning left
to right without overlap (first step of `BasicInterpolation.before_set`).
-/
def dropPctPct : List Char → List Char
  | '%' :: '%' :: rest => dropPctPct rest
  | c :: rest => c :: dropPctPct rest
  | [] => []

/-- Match the interpolation-reference regex `%\(([^)]+)\)s` directly
after a `%`: given the characters following the `%`, return the
characters after the whole reference on success. -/
def matchRef : List Char → Option (List Char)
  | '(' :: rest2 =>
      let inner := rest2.takeWhile (· ≠ ')')
      if inner.isEmpty then none
      else
        match rest2.drop inner.length with
        | ')' :: 's' :: rest3 => some rest3
        | _ => none
  | _ => none

/-- `_KEYCRE.sub('', ·)`: drop every `%(name)s` interpolation reference,
scanning left to right (second step of `before_set`).  The fuel is the
input length; since every step consumes at least one character the fuel
never runs out on the initial call. -/
def dropInterpRefsAux : Nat → List Char → List Char
  | 0, l => l
  | _ + 1, [] => []
  | fuel + 1, '%' :: rest =>
      match matchRef rest with
      | some rest3 => dropInterpRefsAux fuel rest3
      | none => '%' :: dropInterpRefsAux fuel rest
  | fuel + 1, c :: rest => c :: dropInterpRefsAux fuel rest

/-- Drop every `%(name)s` interpolation reference. -/
def dropInterpRefs (l : List Char) : List Char :=
  dropInterpRefsAux l.length l

/-- `BasicInterpolation.before_set` accepts a value: after removing every
escaped `%%` pair and every `%(name)s` reference, no `%` may remain;
otherwise `ValueError("invalid interpolation syntax …")` is raised.
(Checked against CPython on exhaustive small inputs.) -/
def interpOk (v : String) : Bool :=
  !(dropInterpRefs (dropPctPct v.toList)).contains '%'

/-- Installing a section dict into the `ConfigParser` succeeds iff every
value passes `before_set`; `RawConfigParser.set` skips the interpolation
check for falsy (empty) values. -/
def sectionSetOk (kvs : List (String × String)) : Bool :=
  kvs.all fun kv => kv.2 = "" || interpOk kv.2

/-- `config[name] = dict`: raises `ValueError` on the first value with
invalid interpolation syntax, otherwise stores the section. -/
def setSection (name : String) (kvs : List (String × String)) :
    Except String Unit :=
  if sectionSetOk kvs then .ok ()
  else .error ("invalid interpolation syntax in section " ++ name)

/-- The text produced by `config.write(sio)`: the three stored sections
in insertion order. -/
def Data.renderedDoc (d : Data) : String :=
  writeSection "Global" d.globalSection ++
  writeSection "LoadBalancer" d.lbSection ++
  writeSection "BlockStorage" d.bsSection

/-- `Data.cloud_config`: build the three section dicts, install them into
a `ConfigParser` as `Global`, `LoadBalancer`, `BlockStorage` (in that
order) and write it out.  Installation validates every value through
`BasicInterpolation.before_set`, so a value containing a stray `%` makes
the property raise `ValueError` (the `.error` case) instead of returning
a document. -/
def Data.cloud_config (d : Data) : Except String String := do
  let _ ← setSection "Global" d.globalSection
  let _ ← setSection "LoadBalancer" d.lbSection
  let _ ← setSection "BlockStorage" d.bsSection
  pure d.renderedDoc

/-- The completely empty databag: every declared key absent.  Python dict
truthiness (`if raw`) over the databag is modelled as "some declared field
is present". -/
def emptyRawMap : RawMap := {}

/-- State of an `OpenstackIntegrationRequirer` relevant to the pure core:
the endpoint name, whether `self.relation` is set, and the first remote
unit's databag (`none` when the relation has no units). -/
structure Requirer where
  endpoint : String
  hasRelation : Bool
  unitData : Option RawMap
deriving Repr, DecidableEq

/-- `OpenstackIntegrationRequirer._raw_data`: the first unit's databag if
the relation exists and has units, else `None`. -/
def Requirer.raw_data (r : Requirer) : Option RawMap :=
  if r.hasRelation then r.unitData else none

/-- `OpenstackIntegrationRequirer._data`: `Data(**raw) if raw else None`;
an absent or falsy (empty) databag gives `None`, otherwise the pydantic
construction runs and may raise `ValidationError` (the `.error` case). -/
def Requirer.dataE (r : Requirer) : Except String (Option Data) :=
  match r.raw_data with
  | some raw => if raw ≠ emptyRawMap then (Construct raw).map some else .ok none
  | none => .ok none

/-- The `all(field is not None for field in [...])` readiness test over
`auth_url`, `username`, `password`, `user_domain_name`,
`project_domain_name`, `project_name`: each listed field has non-optional
type `str`/`SecretStr`, so after a successful parse none of them can be
`None` and the test is vacuously true for each. -/
def requiredFieldsNotNone (d : Data) : Bool :=
  [d.auth_url, d.username, d.password, d.user_domain_name,
   d.project_domain_name, d.project_name].all (fun _ => true)

/-- `OpenstackIntegrationRequirer.is_ready`: `ValidationError` from the
parse is caught (logged) and yields `False`; absent data yields `False`;
otherwise the non-`None` test over the six listed fields. -/
def Requirer.is_ready (r : Requirer) : Bool :=
  match r.dataE with
  | .error _ => false
  | .ok none => false
  | .ok (some d) => requiredFieldsNotNone d

/-- `OpenstackIntegrationRequirer.evaluate_relation(event)`:
`eventBrokenThisRelation` stands for `isinstance(event, RelationBrokenEvent)
and event.relation is self.relation`. -/
def Requirer.evaluate_relation (r : Requirer) (eventBrokenThisRelation : Bool) :
    Option String :=
  let no_relation := !r.hasRelation || eventBrokenThisRelation
  if !r.is_ready then
    if no_relation then some ("Missing required " ++ r.endpoint)
    else some ("Waiting for " ++ r.endpoint)
  else none

/-- `OpenstackIntegrationRequirer.cloud_conf`: the rendered document when
ready (a constructed model instance is always truthy), else `None`; a
`ValueError` raised while rendering propagates uncaught (the `.error`
case). -/
def Requirer.cloud_conf (r : Requirer) : Except String (Option String) :=
  if r.is_ready then
    match r.dataE with
    | .ok (some d) => d.cloud_config.map some
    | _ => .ok none
  else .ok none

/-- The standard base64 alphabet character for a 6-bit index. -/
def b64EncChar (n : Nat) : Char :=
  "ABCDEFGHIJKLMNOPQRSTUVWXYZabcdefghijklmnopqrstuvwxyz0123456789+/".toList.getD n '?'

/-- `base64.b64encode` over a byte list (each `Nat` is one byte): three
bytes become four alphabet characters; a final group of one or two bytes
is padded with `=`. -/
def b64encodeBytes : List Nat → String
  | [] => ""
  | [a] => String.mk [b64EncChar (a / 4), b64EncChar (a % 4 * 16), '=', '=']
  | [a, b] => String.mk [b64EncChar (a / 4), b64EncChar (a % 4 * 16 + b / 16),
      b64EncChar (b % 16 * 4), '=']
  | a :: b :: c :: rest =>
      String.mk [b64EncChar (a / 4), b64EncChar (a % 4 * 16 + b / 16),
        b64EncChar (b % 16 * 4 + c / 64), b64EncChar (c % 64)] ++ b64encodeBytes rest

/-- `base64.b64encode(s.encode())`: base64 of the exact UTF-8 bytes of a
string (the result is ASCII text, returned as a string). -/
def b64encodeStr (s : String) : String :=
  b64encodeBytes (s.toUTF8.toList.map (·.toNat))

/-- `OpenstackIntegrationRequirer.cloud_conf_b64`:
`if self.is_ready and (data := self.cloud_conf): return
base64.b64encode(data.encode())` — the walrus also tests the rendered
string's truthiness (non-emptiness), and a `ValueError` raised inside
`self.cloud_conf` propagates uncaught. -/
def Requirer.cloud_conf_b64 (r : Requirer) : Except String (Option String) :=
  if r.is_ready then
    match r.cloud_conf with
    | .ok (some s) => if s ≠ "" then .ok (some (b64encodeStr s)) else .ok none
    | .ok none => .ok none
    | .error e => .error e
  else .ok none

/-! ## Validity predicates over raw databag entries -/

/-- A required field is supplied as a JSON string literal that is
non-empty. -/
def ReqOk (o : Option JVal) : Prop := ∃ s, o = some (.jstr s) ∧ s ≠ ""

/-- A required field is supplied as a JSON string literal (possibly
empty). -/
def ReqPresent (o : Option JVal) : Prop := ∃ s, o = some (.jstr s)

/-- An optional string field is absent, JSON `null`, or a JSON string. -/
def OptStrOk (o : Option JVal) : Prop :=
  o = none ∨ o = some .null ∨ ∃ s, o = some (.jstr s)

/-- An optional boolean field is absent, JSON `null`, or a JSON boolean. -/
def OptBoolOk (o : Option JVal) : Prop :=
  o = none ∨ o = some .null ∨ ∃ b, o = some (.jbool b)

/-- An optional integer field is absent, JSON `null`, or a JSON integer. -/
def OptIntOk (o : Option JVal) : Prop :=
  o = none ∨ o = some .null ∨ ∃ n, o = some (.jint n)

/-- The optional mapping field is absent, JSON `null`, or a JSON object. -/
def OptDictOk (o : Option JVal) : Prop :=
  o = none ∨ o = some .null ∨ ∃ m, o = some (.jmap m)

/-- The certificate field is absent, or a JSON string holding valid
standard base64. -/
def CaOk (o : Option JVal) : Prop :=
  o = none ∨ ∃ s, o = some (.jstr s) ∧ validB64 s = true

/-- All declared fields of the raw databag are valid, with required
fields present as (possibly empty) JSON strings. -/
def ValidRawLax (r : RawMap) : Prop :=
  ReqPresent r.auth_url ∧ ReqPresent r.password ∧
  ReqPresent r.project_domain_name ∧ ReqPresent r.project_name ∧
  ReqPresent r.region ∧ ReqPresent r.username ∧
  ReqPresent r.user_domain_name ∧
  OptStrOk r.bs_version ∧ OptStrOk r.domain_id ∧ OptStrOk r.domain_name ∧
  CaOk r.endpoint_tls_ca ∧ OptStrOk r.floating_network_id ∧
  OptBoolOk r.has_octavia ∧ OptBoolOk r.ignore_volume_az ∧
  OptBoolOk r.internal_lb ∧ OptBoolOk r.lb_enabled ∧
  OptStrOk r.lb_method ∧ OptStrOk r.project_id ∧
  OptStrOk r.project_domain_id ∧ OptDictOk r.proxy_config ∧
  OptBoolOk r.manage_security_groups ∧ OptStrOk r.subnet_id ∧
  OptBoolOk r.trust_device_path ∧ OptStrOk r.user_domain_id ∧
  OptIntOk r.version

/-- All declared fields of the raw databag are valid, with required
fields present as non-empty JSON strings. -/
def ValidRaw (r : RawMap) : Prop :=
  ReqOk r.auth_url ∧ ReqOk r.password ∧
  ReqOk r.project_domain_name ∧ ReqOk r.project_name ∧
  ReqOk r.region ∧ ReqOk r.username ∧ ReqOk r.user_domain_name ∧
  OptStrOk r.bs_version ∧ OptStrOk r.domain_id ∧ OptStrOk r.domain_name ∧
  CaOk r.endpoint_tls_ca ∧ OptStrOk r.floating_network_id ∧
  OptBoolOk r.has_octavia ∧ OptBoolOk r.ignore_volume_az ∧
  OptBoolOk r.internal_lb ∧ OptBoolOk r.lb_enabled ∧
  OptStrOk r.lb_method ∧ OptStrOk r.project_id ∧
  OptStrOk r.project_domain_id ∧ OptDictOk r.proxy_config ∧
  OptBoolOk r.manage_security_groups ∧ OptStrOk r.subnet_id ∧
  OptBoolOk r.trust_device_path ∧ OptStrOk r.user_domain_id ∧
  OptIntOk r.version

/-! ## Concrete sample databags used by witnesses and counterexamples -/

/-- A complete, valid databag: all required fields supplied as non-empty
JSON strings, every optional field absent. -/
def rawOk : RawMap :=
  { auth_url := some (.jstr "https://keystone:5000/v3"),
    password := some (.jstr "secret"),
    project_domain_name := some (.jstr "default"),
    project_name := some (.jstr "admin"),
    region := some (.jstr "RegionOne"),
    username := some (.jstr "admin"),
    user_domain_name := some (.jstr "admin_domain") }

/-- `rawOk` with every optional field explicitly supplied and valid. -/
def rawFull : RawMap :=
  { rawOk with
    bs_version := some (.jstr "v2"),
    domain_id := some (.jstr "did"),
    domain_name := some (.jstr "dname"),
    endpoint_tls_ca := some (.jstr "Zm9v"),
    floating_network_id := some (.jstr "fnid"),
    has_octavia := some (.jbool true),
    ignore_volume_az := some (.jbool false),
    internal_lb := some (.jbool true),
    lb_enabled := some (.jbool true),
    lb_method := some (.jstr "ROUND_ROBIN"),
    project_id := some (.jstr "pid"),
    project_domain_id := some (.jstr "pdid"),
    proxy_config := some (.jmap [("HTTP_PROXY", "http://proxy:3128")]),
    manage_security_groups := some (.jbool true),
    subnet_id := some (.jstr "sub-1"),
    trust_device_path := some (.jbool false),
    user_domain_id := some (.jstr "udid"),
    version := some (.jint 3) }


/-- Keys of the `[Global]` section in the declaration order of the
rendering code. -/
def globalKeys : List String :=
  ["auth-url", "ca-file", "username", "password", "region", "domain-id",
   "domain-name", "tenant-id", "tenant-name", "tenant-domain-id",
   "tenant-domain-name", "user-domain-id", "user-domain-name"]

/-- Keys of the `[LoadBalancer]` section in declaration order. -/
def lbKeys : List String :=
  ["enabled", "use-octavia", "lb-provider", "subnet-id",
   "floating-network-id", "lb-method", "internal-lb",
   "manage-security-groups"]

/-- Keys of the `[BlockStorage]` section in declaration order. -/
def bsKeys : List String :=
  ["bs-version", "trust-device-path", "ignore-volume-az"]

/-- `rawOk` with `lb_enabled` explicitly supplied as JSON `null`. -/
def rawLbNull : RawMap := { rawOk with lb_enabled := some JVal.null }

/-- `rawOk` with `has_octavia` JSON-decoding to `false`. -/
def rawOctaviaFalse : RawMap := { rawOk with has_octavia := some (JVal.jbool false) }

/-- `rawOk` with `auth_url` supplied as the empty JSON string. -/
def rawEmptyAuth : RawMap := { rawOk with auth_url := some (JVal.jstr "") }

/-- `rawOk` with the required `auth_url` key missing. -/
def rawMissingAuth : RawMap := { rawOk with auth_url := none }

/-- `rawOk` with the required `username` key missing. -/
def rawMissingUser : RawMap := { rawOk with username := none }

/-- `rawOk` with `endpoint_tls_ca` explicitly supplied as JSON `null`. -/
def rawCaNull : RawMap := { rawOk with endpoint_tls_ca := some JVal.null }

/-- `rawOk` with `endpoint_tls_ca` supplied as a non-base64 string. -/
def rawCaBad : RawMap := { rawOk with endpoint_tls_ca := some (JVal.jstr "!not-base64!") }

/-- `rawOk` with a password containing a stray `%`: accepted by the
pydantic model but rejected by configparser's interpolation-syntax check
at render time. -/
def rawPct : RawMap := { rawOk with password := some (JVal.jstr "50%") }

/-- The record produced by constructing `rawOk`. -/
def dataOk : Data :=
  { auth_url := "https://keystone:5000/v3", password := "secret",
    project_domain_name := "default", project_name := "admin",
    region := "RegionOne", username := "admin",
    user_domain_name := "admin_domain", bs_version := none,
    domain_id := none, domain_name := none, endpoint_tls_ca := none,
    floating_network_id := none, has_octavia := none,
    ignore_volume_az := none, internal_lb := none, lb_enabled := none,
    lb_method := none, project_id := none, project_domain_id := none,
    proxy_config := none, manage_security_groups := none,
    subnet_id := none, trust_device_path := none, user_domain_id := none,
    version := none }

/-- The record produced by constructing `rawOctaviaFalse`. -/
def dataOctaviaFalse : Data := { dataOk with has_octavia := some false }

/-- The record produced by constructing `rawPct`. -/
def dataPct : Data := { dataOk with password := "50%" }

/-! ## Helper lemmas -/

/-- Unfold a successful `Except` bind into its two successful stages. -/
theorem exceptBindOk {α β : Type} {x : Except String α}
    {f : α → Except String β} {b : β} (h : x >>= f = .ok b) :
    ∃ a, x = .ok a ∧ f a = .ok b := by
  cases x with
  | error e => simp [Bind.bind, Except.bind] at h
  | ok a => exact ⟨a, rfl, by simpa [Bind.bind, Except.bind] using h⟩

/-- `isOk` detects a successful result. -/
theorem exceptIsOk_iff {α : Type} {x : Except String α} :
    x.isOk = true ↔ ∃ a, x = .ok a := by
  cases x <;> simp [Except.isOk, Except.toBool]

/-- `isOk = false` detects an error result. -/
theorem exceptIsOk_false_iff {α : Type} {x : Except String α} :
    x.isOk = false ↔ ∃ e, x = .error e := by
  cases x <;> simp [Except.isOk, Except.toBool]

/-- A successful construction determines every field of the record from
the corresponding raw field's parse. -/
theorem Construct_fields {r : RawMap} {d : Data} (h : Construct r = .ok d) :
    requiredStr r.auth_url = .ok d.auth_url ∧
    requiredStr r.password = .ok d.password ∧
    requiredStr r.project_domain_name = .ok d.project_domain_name ∧
    requiredStr r.project_name = .ok d.project_name ∧
    requiredStr r.region = .ok d.region ∧
    requiredStr r.username = .ok d.username ∧
    requiredStr r.user_domain_name = .ok d.user_domain_name ∧
    optStr r.bs_version = .ok d.bs_version ∧
    optStr r.domain_id = .ok d.domain_id ∧
    optStr r.domain_name = .ok d.domain_name ∧
    parseTlsCa r.endpoint_tls_ca = .ok d.endpoint_tls_ca ∧
    optStr r.floating_network_id = .ok d.floating_network_id ∧
    optBool r.has_octavia = .ok d.has_octavia ∧
    optBool r.ignore_volume_az = .ok d.ignore_volume_az ∧
    optBool r.internal_lb = .ok d.internal_lb ∧
    optBool r.lb_enabled = .ok d.lb_enabled ∧
    optStr r.lb_method = .ok d.lb_method ∧
    optStr r.project_id = .ok d.project_id ∧
    optStr r.project_domain_id = .ok d.project_domain_id ∧
    optDict r.proxy_config = .ok d.proxy_config ∧
    optBool r.manage_security_groups = .ok d.manage_security_groups ∧
    optStr r.subnet_id = .ok d.subnet_id ∧
    optBool r.trust_device_path = .ok d.trust_device_path ∧
    optStr r.user_domain_id = .ok d.user_domain_id ∧
    optInt r.version = .ok d.version := by
  unfold Construct at h
  obtain ⟨a1, h1, h⟩ := exceptBindOk h
  obtain ⟨a2, h2, h⟩ := exceptBindOk h
  obtain ⟨a3, h3, h⟩ := exceptBindOk h
  obtain ⟨a4, h4, h⟩ := exceptBindOk h
  obtain ⟨a5, h5, h⟩ := exceptBindOk h
  obtain ⟨a6, h6, h⟩ := exceptBindOk h
  obtain ⟨a7, h7, h⟩ := exceptBindOk h
  obtain ⟨a8, h8, h⟩ := exceptBindOk h
  obtain ⟨a9, h9, h⟩ := exceptBindOk h
  obtain ⟨a10, h10, h⟩ := exceptBindOk h
  obtain ⟨a11, h11, h⟩ := exceptBindOk h
  obtain ⟨a12, h12, h⟩ := exceptBindOk h
  obtain ⟨a13, h13, h⟩ := exceptBindOk h
  obtain ⟨a14, h14, h⟩ := exceptBindOk h
  obtain ⟨a15, h15, h⟩ := exceptBindOk h
  obtain ⟨a16, h16, h⟩ := exceptBindOk h
  obtain ⟨a17, h17, h⟩ := exceptBindOk h
  obtain ⟨a18, h18, h⟩ := exceptBindOk h
  obtain ⟨a19, h19, h⟩ := exceptBindOk h
  obtain ⟨a20, h20, h⟩ := exceptBindOk h
  obtain ⟨a21, h21, h⟩ := exceptBindOk h
  obtain ⟨a22, h22, h⟩ := exceptBindOk h
  obtain ⟨a23, h23, h⟩ := exceptBindOk h
  obtain ⟨a24, h24, h⟩ := exceptBindOk h
  obtain ⟨a25, h25, h⟩ := exceptBindOk h
  have hd : Except.ok (ε := String) ({
      auth_url := a1, password := a2, project_domain_name := a3,
      project_name := a4, region := a5, username := a6,
      user_domain_name := a7, bs_version := a8, domain_id := a9,
      domain_name := a10, endpoint_tls_ca := a11,
      floating_network_id := a12, has_octavia := a13,
      ignore_volume_az := a14, internal_lb := a15, lb_enabled := a16,
      lb_method := a17, project_id := a18, project_domain_id := a19,
      proxy_config := a20, manage_security_groups := a21,
      subnet_id := a22, trust_device_path := a23, user_domain_id := a24,
      version := a25 } : Data) = .ok d := h
  cases hd
  exact ⟨h1, h2, h3, h4, h5, h6, h7, h8, h9, h10, h11, h12, h13, h14,
    h15, h16, h17, h18, h19, h20, h21, h22, h23, h24, h25⟩

/-- A present required field parses successfully. -/
theorem requiredStr_present {o : Option JVal} (h : ReqPresent o) :
    ∃ s, requiredStr o = .ok s := by
  obtain ⟨s, rfl⟩ := h
  exact ⟨s, rfl⟩

/-- A valid optional string field parses successfully. -/
theorem optStr_ok {o : Option JVal} (h : OptStrOk o) :
    ∃ v, optStr o = .ok v := by
  rcases h with rfl | rfl | ⟨s, rfl⟩ <;> exact ⟨_, rfl⟩

/-- A valid optional boolean field parses successfully. -/
theorem optBool_ok {o : Option JVal} (h : OptBoolOk o) :
    ∃ v, optBool o = .ok v := by
  rcases h with rfl | rfl | ⟨b, rfl⟩ <;> exact ⟨_, rfl⟩

/-- A valid optional integer field parses successfully. -/
theorem optInt_ok {o : Option JVal} (h : OptIntOk o) :
    ∃ v, optInt o = .ok v := by
  rcases h with rfl | rfl | ⟨n, rfl⟩ <;> exact ⟨_, rfl⟩

/-- A valid optional mapping field parses successfully. -/
theorem optDict_ok {o : Option JVal} (h : OptDictOk o) :
    ∃ v, optDict o = .ok v := by
  rcases h with rfl | rfl | ⟨m, rfl⟩ <;> exact ⟨_, rfl⟩

/-- A valid certificate field parses successfully. -/
theorem parseTlsCa_ok {o : Option JVal} (h : CaOk o) :
    ∃ v, parseTlsCa o = .ok v := by
  rcases h with rfl | ⟨s, rfl, hb⟩
  · exact ⟨none, rfl⟩
  · exact ⟨some s, by
      simp [parseTlsCa, optStr, strCoerce, hb, Except.map, Bind.bind, Except.bind]⟩

/-- Construction succeeds on any databag whose fields are all valid
(required fields possibly empty). -/
theorem Construct_ok_of_validLax {r : RawMap} (h : ValidRawLax r) :
    (Construct r).isOk = true := by
  obtain ⟨q1, q2, q3, q4, q5, q6, q7, o8, o9, o10, o11, o12, o13, o14,
    o15, o16, o17, o18, o19, o20, o21, o22, o23, o24, o25⟩ := h
  obtain ⟨s1, e1⟩ := requiredStr_present q1
  obtain ⟨s2, e2⟩ := requiredStr_present q2
  obtain ⟨s3, e3⟩ := requiredStr_present q3
  obtain ⟨s4, e4⟩ := requiredStr_present q4
  obtain ⟨s5, e5⟩ := requiredStr_present q5
  obtain ⟨s6, e6⟩ := requiredStr_present q6
  obtain ⟨s7, e7⟩ := requiredStr_present q7
  obtain ⟨v8, e8⟩ := optStr_ok o8
  obtain ⟨v9, e9⟩ := optStr_ok o9
  obtain ⟨v10, e10⟩ := optStr_ok o10
  obtain ⟨v11, e11⟩ := parseTlsCa_ok o11
  obtain ⟨v12, e12⟩ := optStr_ok o12
  obtain ⟨v13, e13⟩ := optBool_ok o13
  obtain ⟨v14, e14⟩ := optBool_ok o14
  obtain ⟨v15, e15⟩ := optBool_ok o15
  obtain ⟨v16, e16⟩ := optBool_ok o16
  obtain ⟨v17, e17⟩ := optStr_ok o17
  obtain ⟨v18, e18⟩ := optStr_ok o18
  obtain ⟨v19, e19⟩ := optStr_ok o19
  obtain ⟨v20, e20⟩ := optDict_ok o20
  obtain ⟨v21, e21⟩ := optBool_ok o21
  obtain ⟨v22, e22⟩ := optStr_ok o22
  obtain ⟨v23, e23⟩ := optBool_ok o23
  obtain ⟨v24, e24⟩ := optStr_ok o24
  obtain ⟨v25, e25⟩ := optInt_ok o25
  simp [Construct, e1, e2, e3, e4, e5, e6, e7, e8, e9, e10, e11, e12,
    e13, e14, e15, e16, e17, e18, e19, e20, e21, e22, e23, e24, e25,
    Bind.bind, Except.bind, pure, Except.pure, Except.isOk, Except.toBool]

/-- The non-empty databag validity carries over from the strict to the
lax predicate. -/
theorem ValidRaw.lax {r : RawMap} (h : ValidRaw r) : ValidRawLax r := by
  obtain ⟨q1, q2, q3, q4, q5, q6, q7, rest⟩ := h
  exact ⟨⟨q1.choose, q1.choose_spec.1⟩, ⟨q2.choose, q2.choose_spec.1⟩,
    ⟨q3.choose, q3.choose_spec.1⟩, ⟨q4.choose, q4.choose_spec.1⟩,
    ⟨q5.choose, q5.choose_spec.1⟩, ⟨q6.choose, q6.choose_spec.1⟩,
    ⟨q7.choose, q7.choose_spec.1⟩, rest⟩

/-- The rendered document is never the empty string. -/
theorem renderedDoc_ne_empty (d : Data) : d.renderedDoc ≠ "" := by
  intro h
  have hlen := congrArg String.length h
  have h9 : ("[Global]\n" : String).length = 9 := rfl
  simp [Data.renderedDoc, writeSection, String.length_append, h9] at hlen

/-- A successful render returns exactly the three-section document. -/
theorem cloud_config_ok_renderedDoc {d : Data} {s : String}
    (h : d.cloud_config = .ok s) : s = d.renderedDoc := by
  unfold Data.cloud_config setSection at h
  split_ifs at h <;> simp_all [Bind.bind, Except.bind, pure, Except.pure]

/-- A guarded single-entry chunk respects an ordered key list. -/
theorem sublist_if_cons {α : Type} {c : Prop} [Decidable c] {x : α}
    {l L : List α} (h : l.Sublist L) :
    ((if c then [x] else []) ++ l).Sublist (x :: L) := by
  by_cases hc : c
  · simpa [hc] using h.cons₂ x
  · simpa [hc] using h.cons x

/-- A final guarded single-entry chunk respects its key. -/
theorem sublist_if_single {α : Type} {c : Prop} [Decidable c] {x : α} :
    (if c then [x] else []).Sublist [x] := by
  by_cases hc : c <;> simp [hc]

/-- A guarded chunk whose `else` branch holds the entry (the
`enabled` case) respects an ordered key list. -/
theorem sublist_if_nil_cons {α : Type} {c : Prop} [Decidable c] {x : α}
    {l L : List α} (h : l.Sublist L) :
    ((if c then [] else [x]) ++ l).Sublist (x :: L) := by
  by_cases hc : c
  · simpa [hc] using h.cons x
  · simpa [hc] using h.cons₂ x

/-- The two-branch `use-octavia`/`lb-provider` chunk respects an ordered
key list. -/
theorem sublist_if_pair {α : Type} {c : Prop} [Decidable c] {x y : α}
    {l L : List α} (h : l.Sublist L) :
    ((if c then [x] else [x, y]) ++ l).Sublist (x :: y :: L) := by
  by_cases hc : c
  · simpa [hc] using (h.cons y).cons₂ x
  · simpa [hc] using (h.cons₂ y).cons₂ x

/-- `[Global]` keys appear in declaration order. -/
theorem globalSection_keys (d : Data) :
    (d.globalSection.map Prod.fst).Sublist globalKeys := by
  unfold Data.globalSection globalKeys
  simp only [List.map_append,
    apply_ite (List.map (Prod.fst : String × String → String)),
    List.map_cons, List.map_nil, List.append_assoc]
  exact sublist_if_cons (sublist_if_cons (sublist_if_cons (sublist_if_cons
    (sublist_if_cons (sublist_if_cons (sublist_if_cons (sublist_if_cons
    (sublist_if_cons (sublist_if_cons (sublist_if_cons (sublist_if_cons
    sublist_if_single)))))))))))

/-- `[LoadBalancer]` keys appear in declaration order. -/
theorem lbSection_keys (d : Data) :
    (d.lbSection.map Prod.fst).Sublist lbKeys := by
  unfold Data.lbSection lbKeys
  simp only [List.map_append,
    apply_ite (List.map (Prod.fst : String × String → String)),
    List.map_cons, List.map_nil, List.append_assoc]
  exact sublist_if_nil_cons (sublist_if_pair (sublist_if_cons
    (sublist_if_cons (sublist_if_cons (sublist_if_cons
    sublist_if_single)))))

/-- `[BlockStorage]` keys appear in declaration order. -/
theorem bsSection_keys (d : Data) :
    (d.bsSection.map Prod.fst).Sublist bsKeys := by
  unfold Data.bsSection bsKeys
  simp only [List.map_append,
    apply_ite (List.map (Prod.fst : String × String → String)),
    List.map_cons, List.map_nil, List.append_assoc]
  exact sublist_if_cons (sublist_if_cons sublist_if_single)

/-- A key distinct from a guarded chunk's key is absent from it. -/
theorem key_not_mem_if_append {key k v : String} {c : Prop} [Decidable c]
    {l : List (String × String)} (hk : key ≠ k)
    (h : key ∉ l.map Prod.fst) :
    key ∉ ((if c then [(k, v)] else []) ++ l).map Prod.fst := by
  by_cases hc : c <;> simp [hc, hk, h]

/-- A key distinct from a final guarded chunk's key is absent from it. -/
theorem key_not_mem_if_single {key k v : String} {c : Prop} [Decidable c]
    (hk : key ≠ k) :
    key ∉ (if c then [(k, v)] else []).map Prod.fst := by
  by_cases hc : c <;> simp [hc, hk]

/-- A databag with a present `auth_url` key is not the empty databag. -/
theorem ne_empty_of_auth_url {r : RawMap} {v : JVal}
    (h : r.auth_url = some v) : r ≠ emptyRawMap := by
  intro he
  rw [he] at h
  exact Option.noConfusion h

/-- A construction failure makes the façade not ready. -/
theorem is_ready_false_of_construct_err {r : RawMap} (ep : String)
    (h : (Construct r).isOk = false) :
    Requirer.is_ready ⟨ep, true, some r⟩ = false := by
  obtain ⟨e, he⟩ := exceptIsOk_false_iff.mp h
  by_cases hne : r = emptyRawMap
  · simp [Requirer.is_ready, Requirer.dataE, Requirer.raw_data, hne]
  · simp [Requirer.is_ready, Requirer.dataE, Requirer.raw_data, hne, he,
      Except.map]

/-- A successful construction of a non-empty databag makes the façade
ready (the non-`None` test over the six required fields is vacuous). -/
theorem is_ready_true_of_construct_ok {r : RawMap} {d : Data} (ep : String)
    (hne : r ≠ emptyRawMap) (h : Construct r = .ok d) :
    Requirer.is_ready ⟨ep, true, some r⟩ = true := by
  simp [Requirer.is_ready, Requirer.dataE, Requirer.raw_data, hne, h,
    Except.map, requiredFieldsNotNone]

/-- If any required field is missing or JSON-decodes to `null`,
construction fails. -/
theorem construct_fails_of_required_bad {r : RawMap}
    (h : r.auth_url = none ∨ r.auth_url = some JVal.null ∨
      r.password = none ∨ r.password = some JVal.null ∨
      r.project_domain_name = none ∨ r.project_domain_name = some JVal.null ∨
      r.project_name = none ∨ r.project_name = some JVal.null ∨
      r.region = none ∨ r.region = some JVal.null ∨
      r.username = none ∨ r.username = some JVal.null ∨
      r.user_domain_name = none ∨ r.user_domain_name = some JVal.null) :
    (Construct r).isOk = false := by
  cases hok : (Construct r).isOk with
  | false => rfl
  | true =>
    exfalso
    obtain ⟨d, hd⟩ := exceptIsOk_iff.mp hok
    obtain ⟨h1, h2, h3, h4, h5, h6, h7, -⟩ := Construct_fields hd
    rcases h with hc | hc | hc | hc | hc | hc | hc | hc | hc | hc | hc |
      hc | hc | hc <;>
      · first
        | (rw [hc] at h1; simp [requiredStr, strCoerce] at h1)
        | (rw [hc] at h2; simp [requiredStr, strCoerce] at h2)
        | (rw [hc] at h3; simp [requiredStr, strCoerce] at h3)
        | (rw [hc] at h4; simp [requiredStr, strCoerce] at h4)
        | (rw [hc] at h5; simp [requiredStr, strCoerce] at h5)
        | (rw [hc] at h6; simp [requiredStr, strCoerce] at h6)
        | (rw [hc] at h7; simp [requiredStr, strCoerce] at h7)

/-- C8 counterexample: a ConfigRecord reachable from peer data (pydantic
accepts `password = "50%"`) for which the render raises `ValueError` and
produces no document at all, refuting the claim's universal
quantification over every ConfigRecord. -/
theorem C8_counterexample :
    Construct rawPct = .ok dataPct ∧ dataPct.password = "50%" ∧
    dataPct.cloud_config.isOk = false :=
  ⟨by rfl, rfl, by decide⟩

/-- C8 amended: for every ConfigRecord whose section values pass
configparser's interpolation-syntax validation, the rendered document is
exactly the three sections `Global`, `LoadBalancer`, `BlockStorage` in
that fixed order, each written as its always-present bracketed header
line followed by newline-terminated `key = value` lines and a blank line
(`writeSection`), with keys in the declaration order of the rendering
code; a record with a stray `%` in some value instead raises
`ValueError` and yields no document. -/
theorem C8_document_structure (d : Data) :
    ((sectionSetOk d.globalSection && sectionSetOk d.lbSection &&
        sectionSetOk d.bsSection) = true →
      d.cloud_config = .ok
        (writeSection "Global" d.globalSection ++
         writeSection "LoadBalancer" d.lbSection ++
         writeSection "BlockStorage" d.bsSection)) ∧
    ((sectionSetOk d.globalSection && sectionSetOk d.lbSection &&
        sectionSetOk d.bsSection) = false →
      ∃ e, d.cloud_config = .error e) ∧
    (d.globalSection.map Prod.fst).Sublist globalKeys ∧
    (d.lbSection.map Prod.fst).Sublist lbKeys ∧
    (d.bsSection.map Prod.fst).Sublist bsKeys := by
  refine ⟨?_, ?_, globalSection_keys d, lbSection_keys d, bsSection_keys d⟩
  · intro h
    have h3 : sectionSetOk d.globalSection = true ∧
        sectionSetOk d.lbSection = true ∧
        sectionSetOk d.bsSection = true := by
      simpa [Bool.and_eq_true, and_assoc] using h
    simp [Data.cloud_config, setSection, Data.renderedDoc, h3.1, h3.2.1,
      h3.2.2, Bind.bind, Except.bind, pure, Except.pure]
  · intro h
    cases hg : sectionSetOk d.globalSection with
    | false =>
      exact ⟨"invalid interpolation syntax in section Global",
        by simp [Data.cloud_config, setSection, hg, Bind.bind, Except.bind]⟩
    | true =>
      cases hl : sectionSetOk d.lbSection with
      | false =>
        exact ⟨"invalid interpolation syntax in section LoadBalancer",
          by simp [Data.cloud_config, setSection, hg, hl, Bind.bind,
            Except.bind]⟩
      | true =>
        cases hb : sectionSetOk d.bsSection with
        | false =>
          exact ⟨"invalid interpolation syntax in section BlockStorage",
            by simp [Data.cloud_config, setSection, hg, hl, hb, Bind.bind,
              Except.bind]⟩
        | true => rw [hg, hl, hb] at h; simp at h

/-- C8 witness: the amended theorem applied to `dataOk` (all values pass
the interpolation check, document produced) and to `dataPct` (stray `%`,
render raises). -/
theorem C8_document_structure_witness :
    dataOk.cloud_config = .ok
      (writeSection "Global" dataOk.globalSection ++
       writeSection "LoadBalancer" dataOk.lbSection ++
       writeSection "BlockStorage" dataOk.bsSection) ∧
    (∃ e, dataPct.cloud_config = .error e) :=
  ⟨(C8_document_structure dataOk).1 (by decide),
   (C8_document_structure dataPct).2.1 (by decide)⟩

/-- C9: rendering is deterministic — the same ConfigRecord always renders
to byte-identical output. -/
theorem C9_render_deterministic (d₁ d₂ : Data) (h : d₁ = d₂) :
    d₁.cloud_config = d₂.cloud_config :=
  congrArg Data.cloud_config h

/-- C9 witness: determinism applied to the concrete record `dataOk`. -/
theorem C9_render_deterministic_witness :
    dataOk.cloud_config = dataOk.cloud_config :=
  C9_render_deterministic dataOk dataOk rfl

/-- C2 counterexample: constructing a databag whose `lb_enabled`
JSON-decodes to `null` yields a record with `lb_enabled = None`, yet its
rendered `[LoadBalancer]` section does contain `enabled = false` — the
claim says the key is not emitted in that case. -/
theorem C2_counterexample :
    Construct rawLbNull = .ok dataOk ∧ dataOk.lb_enabled = none ∧
    ("enabled", "false") ∈ dataOk.lbSection := by
  refine ⟨by rfl, rfl, by decide⟩

/-- C2 amended: the rendered `[LoadBalancer]` section contains the line
`enabled = false` exactly when the parsed `lb_enabled` field is *not*
`True` — i.e. when it is `False` or `null`/absent (the code guards with
Python truthiness, `if not self.lb_enabled`, so `null` is treated as
disabled, not enabled); when `lb_enabled` is `True` the `enabled` key is
not emitted at all. -/
theorem C2_lb_enabled_rendering (d : Data) :
    (("enabled", "false") ∈ d.lbSection ↔ d.lb_enabled ≠ some true) ∧
    (d.lb_enabled = some true → "enabled" ∉ d.lbSection.map Prod.fst) := by
  constructor
  · constructor
    · intro hmem heq
      simp only [Data.lbSection, truthyOptBool, heq] at hmem
      simp only [List.mem_append] at hmem
      split_ifs at hmem <;> simp_all
    · intro hne
      rcases hlb : d.lb_enabled with _ | b
      · simp [Data.lbSection, truthyOptBool, hlb]
      · cases b
        · simp [Data.lbSection, truthyOptBool, hlb]
        · exact absurd hlb hne
  · intro heq
    simp only [Data.lbSection, truthyOptBool, heq]
    split_ifs <;> simp

/-- C2 witness: the amended theorem applied to a record with
`lb_enabled = True` (no `enabled` key emitted) and, via the iff, to
`dataOk` (`lb_enabled` null ⇒ line emitted). -/
theorem C2_lb_enabled_rendering_witness :
    ("enabled", "false") ∈ dataOk.lbSection ∧
    "enabled" ∉ (Data.lbSection { dataOk with lb_enabled := some true }).map Prod.fst := by
  constructor
  · exact (C2_lb_enabled_rendering dataOk).1.mpr (by decide)
  · exact (C2_lb_enabled_rendering { dataOk with lb_enabled := some true }).2 rfl

/-- C3 counterexample: a required field that JSON-decodes to the *empty
string* is accepted by construction (pydantic `Json[str]` imposes no
minimum length), contradicting the claim that it fails. -/
theorem C3_counterexample :
    rawEmptyAuth.auth_url = some (JVal.jstr "") ∧
    (Construct rawEmptyAuth).isOk = true := by
  exact ⟨rfl, by decide⟩

/-- C3 amended: construction fails with `ValidationError` whenever any of
the seven required fields is missing or JSON-decodes to `null`; (a field
decoding to the empty string is accepted, consistently with the
truthiness-guarded rendering). -/
theorem C3_required_field_validation (r : RawMap)
    (h : r.auth_url = none ∨ r.auth_url = some JVal.null ∨
      r.password = none ∨ r.password = some JVal.null ∨
      r.project_domain_name = none ∨ r.project_domain_name = some JVal.null ∨
      r.project_name = none ∨ r.project_name = some JVal.null ∨
      r.region = none ∨ r.region = some JVal.null ∨
      r.username = none ∨ r.username = some JVal.null ∨
      r.user_domain_name = none ∨ r.user_domain_name = some JVal.null) :
    (Construct r).isOk = false :=
  construct_fails_of_required_bad h

/-- C3 witness: construction fails on the databag with `auth_url`
missing. -/
theorem C3_required_field_validation_witness :
    (Construct rawMissingAuth).isOk = false :=
  C3_required_field_validation rawMissingAuth (Or.inl rfl)

/-- C4 amended: construction fails on account of `endpoint_tls_ca` when
the key is present and its decoded value is either a non-base64 string
*or JSON `null`* (the pydantic v1 post-validator also runs on an
explicitly supplied `null`, where `base64.b64decode(None)` raises), and
then the façade is not ready; only an *absent* key is never rejected by
this field. -/
theorem C4_tls_ca_validation :
    (∀ (r : RawMap) (s ep : String), r.endpoint_tls_ca = some (.jstr s) →
        validB64 s = false →
        (Construct r).isOk = false ∧
        Requirer.is_ready ⟨ep, true, some r⟩ = false) ∧
    (∀ r : RawMap, r.endpoint_tls_ca = some JVal.null →
        (Construct r).isOk = false) ∧
    parseTlsCa none = Except.ok none := by
  refine ⟨?_, ?_, rfl⟩
  · intro r s ep hca hb
    have hfail : (Construct r).isOk = false := by
      cases hok : (Construct r).isOk with
      | false => rfl
      | true =>
        exfalso
        obtain ⟨d, hd⟩ := exceptIsOk_iff.mp hok
        obtain ⟨-, -, -, -, -, -, -, -, -, -, h11, -⟩ := Construct_fields hd
        rw [hca] at h11
        simp [parseTlsCa, optStr, strCoerce, hb, Bind.bind, Except.bind,
          Except.map] at h11
    exact ⟨hfail, is_ready_false_of_construct_err ep hfail⟩
  · intro r hca
    cases hok : (Construct r).isOk with
    | false => rfl
    | true =>
      exfalso
      obtain ⟨d, hd⟩ := exceptIsOk_iff.mp hok
      obtain ⟨-, -, -, -, -, -, -, -, -, -, h11, -⟩ := Construct_fields hd
      rw [hca] at h11
      simp [parseTlsCa, optStr, strCoerce, Bind.bind, Except.bind,
        Except.map] at h11

/-- C4 counterexample: the claim says an `endpoint_tls_ca` that is
present but JSON-`null` is *not* rejected because of that field; yet the
same databag that succeeds with the key absent fails once the key is
supplied as JSON `null`. -/
theorem C4_counterexample :
    rawCaNull.endpoint_tls_ca = some JVal.null ∧
    (Construct rawOk).isOk = true ∧
    (Construct rawCaNull).isOk = false :=
  ⟨rfl, by decide, by decide⟩

/-- C4 witness: the amended theorem applied to a databag carrying a
non-base64 certificate and to one carrying a JSON-`null` certificate. -/
theorem C4_tls_ca_validation_witness :
    ((Construct rawCaBad).isOk = false ∧
      Requirer.is_ready ⟨"openstack", true, some rawCaBad⟩ = false) ∧
    (Construct rawCaNull).isOk = false :=
  ⟨C4_tls_ca_validation.1 rawCaBad "!not-base64!" "openstack" rfl (by decide),
   C4_tls_ca_validation.2.1 rawCaNull rfl⟩

/-- C5: for every databag in which all declared fields are valid
(required fields non-empty JSON strings, optional fields well-typed or
null, `endpoint_tls_ca` valid base64 when present), construction succeeds
and the façade's `is_ready` is true. -/
theorem C5_valid_complete_ready (r : RawMap) (ep : String) (h : ValidRaw r) :
    (Construct r).isOk = true ∧
    Requirer.is_ready ⟨ep, true, some r⟩ = true := by
  have hok := Construct_ok_of_validLax h.lax
  refine ⟨hok, ?_⟩
  obtain ⟨d, hd⟩ := exceptIsOk_iff.mp hok
  obtain ⟨s, hs, -⟩ := h.1
  exact is_ready_true_of_construct_ok ep (ne_empty_of_auth_url hs) hd

/-- C5 witness: the fully populated valid databag `rawFull` constructs
and is ready. -/
theorem C5_valid_complete_ready_witness :
    (Construct rawFull).isOk = true ∧
    Requirer.is_ready ⟨"openstack", true, some rawFull⟩ = true :=
  C5_valid_complete_ready rawFull "openstack"
    ⟨⟨_, rfl, by decide⟩, ⟨_, rfl, by decide⟩, ⟨_, rfl, by decide⟩,
     ⟨_, rfl, by decide⟩, ⟨_, rfl, by decide⟩, ⟨_, rfl, by decide⟩,
     ⟨_, rfl, by decide⟩,
     Or.inr (Or.inr ⟨_, rfl⟩), Or.inr (Or.inr ⟨_, rfl⟩),
     Or.inr (Or.inr ⟨_, rfl⟩),
     Or.inr ⟨"Zm9v", rfl, by decide⟩,
     Or.inr (Or.inr ⟨_, rfl⟩), Or.inr (Or.inr ⟨_, rfl⟩),
     Or.inr (Or.inr ⟨_, rfl⟩), Or.inr (Or.inr ⟨_, rfl⟩),
     Or.inr (Or.inr ⟨_, rfl⟩), Or.inr (Or.inr ⟨_, rfl⟩),
     Or.inr (Or.inr ⟨_, rfl⟩), Or.inr (Or.inr ⟨_, rfl⟩),
     Or.inr (Or.inr ⟨_, rfl⟩), Or.inr (Or.inr ⟨_, rfl⟩),
     Or.inr (Or.inr ⟨_, rfl⟩), Or.inr (Or.inr ⟨_, rfl⟩),
     Or.inr (Or.inr ⟨_, rfl⟩), Or.inr (Or.inr ⟨_, rfl⟩)⟩

/-- C1: a raw databag omitting `has_octavia` entirely constructs (when
otherwise valid) to a record whose `[LoadBalancer]` section carries
`use-octavia = true`; one whose `has_octavia` JSON-decodes to `false`
renders `use-octavia = false` and `lb-provider = haproxy`. -/
theorem C1_octavia_compat :
    (∀ (r : RawMap) (d : Data), r.has_octavia = none → Construct r = .ok d →
        ("use-octavia", "true") ∈ d.lbSection) ∧
    (∀ r : RawMap, ValidRaw r → r.has_octavia = none →
        (Construct r).isOk = true) ∧
    (∀ (r : RawMap) (d : Data), r.has_octavia = some (.jbool false) →
        Construct r = .ok d →
        ("use-octavia", "false") ∈ d.lbSection ∧
        ("lb-provider", "haproxy") ∈ d.lbSection) := by
  refine ⟨?_, ?_, ?_⟩
  · intro r d hoct hd
    obtain ⟨-, -, -, -, -, -, -, -, -, -, -, -, h13, -⟩ := Construct_fields hd
    rw [hoct] at h13
    have hnone : d.has_octavia = none := by simpa [optBool] using h13.symm
    simp [Data.lbSection, hnone, List.mem_append]
  · intro r h _
    exact Construct_ok_of_validLax h.lax
  · intro r d hoct hd
    obtain ⟨-, -, -, -, -, -, -, -, -, -, -, -, h13, -⟩ := Construct_fields hd
    rw [hoct] at h13
    have hsome : d.has_octavia = some false := by
      simpa [optBool, boolCoerce, Except.map] using h13.symm
    constructor <;> simp [Data.lbSection, hsome, List.mem_append]

/-- C1 witness: both octavia branches exercised on concrete databags. -/
theorem C1_octavia_compat_witness :
    ("use-octavia", "true") ∈ dataOk.lbSection ∧
    (Construct rawOk).isOk = true ∧
    ("use-octavia", "false") ∈ dataOctaviaFalse.lbSection ∧
    ("lb-provider", "haproxy") ∈ dataOctaviaFalse.lbSection := by
  have h1 := C1_octavia_compat.1 rawOk dataOk rfl (by rfl)
  have h2 := C1_octavia_compat.2.1 rawOk
    ⟨⟨_, rfl, by decide⟩, ⟨_, rfl, by decide⟩, ⟨_, rfl, by decide⟩,
     ⟨_, rfl, by decide⟩, ⟨_, rfl, by decide⟩, ⟨_, rfl, by decide⟩,
     ⟨_, rfl, by decide⟩,
     Or.inl rfl, Or.inl rfl, Or.inl rfl, Or.inl rfl, Or.inl rfl,
     Or.inl rfl, Or.inl rfl, Or.inl rfl, Or.inl rfl, Or.inl rfl,
     Or.inl rfl, Or.inl rfl, Or.inl rfl, Or.inl rfl, Or.inl rfl,
     Or.inl rfl, Or.inl rfl, Or.inl rfl⟩ rfl
  have h3 := C1_octavia_compat.2.2 rawOctaviaFalse dataOctaviaFalse rfl (by rfl)
  exact ⟨h1, h2, h3.1, h3.2⟩

/-- C6 counterexample: a *ready* façade (peer data valid for pydantic,
`password = "50%"`) where `cloud_conf` and `cloud_conf_b64` raise an
uncaught `ValueError` instead of returning a string and its base64,
refuting the claim's "whenever ready" clause. -/
theorem C6_counterexample :
    Requirer.is_ready ⟨"openstack", true, some rawPct⟩ = true ∧
    (Requirer.cloud_conf ⟨"openstack", true, some rawPct⟩).isOk = false ∧
    (Requirer.cloud_conf_b64 ⟨"openstack", true, some rawPct⟩).isOk = false :=
  ⟨by decide, by decide, by decide⟩

/-- C6 amended: when the façade is ready, either `cloud_conf` returns the
rendered document and `cloud_conf_b64` returns exactly the standard
base64 encoding of its bytes, or — when a field value has invalid
interpolation syntax — both accessors raise the same uncaught
`ValueError`; when the façade is not ready, both return `None`. -/
theorem C6_b64_of_conf (r : Requirer) :
    (r.is_ready = true →
      (∃ s, r.cloud_conf = .ok (some s) ∧
          r.cloud_conf_b64 = .ok (some (b64encodeStr s))) ∨
      (∃ e, r.cloud_conf = .error e ∧ r.cloud_conf_b64 = .error e)) ∧
    (r.is_ready = false →
      r.cloud_conf = .ok none ∧ r.cloud_conf_b64 = .ok none) := by
  constructor
  · intro hr
    have hr' := hr
    unfold Requirer.is_ready at hr'
    cases hde : r.dataE with
    | error e => rw [hde] at hr'; simp at hr'
    | ok od =>
      cases od with
      | none => rw [hde] at hr'; simp at hr'
      | some d =>
        cases hcc : d.cloud_config with
        | ok s =>
          left
          have hconf : r.cloud_conf = .ok (some s) := by
            simp [Requirer.cloud_conf, hr, hde, hcc, Except.map]
          have hne : s ≠ "" :=
            cloud_config_ok_renderedDoc hcc ▸ renderedDoc_ne_empty d
          exact ⟨s, hconf, by simp [Requirer.cloud_conf_b64, hr, hconf, hne]⟩
        | error e =>
          right
          have hconf : r.cloud_conf = .error e := by
            simp [Requirer.cloud_conf, hr, hde, hcc, Except.map]
          exact ⟨e, hconf, by simp [Requirer.cloud_conf_b64, hr, hconf]⟩
  · intro hr
    simp [Requirer.cloud_conf, Requirer.cloud_conf_b64, hr]

/-- C6 witness: the amended theorem applied to a ready requirer whose
record renders (the error branch is impossible there), to a ready
requirer whose record raises, and to a requirer with no relation. -/
theorem C6_b64_of_conf_witness :
    ((∃ s, Requirer.cloud_conf ⟨"openstack", true, some rawOk⟩ =
          .ok (some s) ∧
        Requirer.cloud_conf_b64 ⟨"openstack", true, some rawOk⟩ =
          .ok (some (b64encodeStr s))) ∨
      (∃ e, Requirer.cloud_conf ⟨"openstack", true, some rawOk⟩ = .error e ∧
        Requirer.cloud_conf_b64 ⟨"openstack", true, some rawOk⟩ = .error e)) ∧
    ((∃ s, Requirer.cloud_conf ⟨"openstack", true, some rawPct⟩ =
          .ok (some s) ∧
        Requirer.cloud_conf_b64 ⟨"openstack", true, some rawPct⟩ =
          .ok (some (b64encodeStr s))) ∨
      (∃ e, Requirer.cloud_conf ⟨"openstack", true, some rawPct⟩ = .error e ∧
        Requirer.cloud_conf_b64 ⟨"openstack", true, some rawPct⟩ = .error e)) ∧
    (Requirer.cloud_conf ⟨"openstack", false, none⟩ = .ok none ∧
      Requirer.cloud_conf_b64 ⟨"openstack", false, none⟩ = .ok none) :=
  ⟨(C6_b64_of_conf ⟨"openstack", true, some rawOk⟩).1 (by decide),
   (C6_b64_of_conf ⟨"openstack", true, some rawPct⟩).1 (by decide),
   (C6_b64_of_conf ⟨"openstack", false, none⟩).2 (by decide)⟩

/-- C7: `evaluate_relation` returns `None` exactly when the façade is
ready; when not ready it returns `Missing required <endpoint>` if there
is no relation (or the triggering event is a broken event for this
relation) and `Waiting for <endpoint>` if a peer exists; any databag
missing a required field yields not-ready plus a non-null reason, and a
construction `ValidationError` is caught, yielding `is_ready = false`
rather than propagating. -/
theorem C7_evaluate_relation :
    (∀ (r : Requirer) (b : Bool),
        r.evaluate_relation b = none ↔ r.is_ready = true) ∧
    (∀ (r : Requirer) (b : Bool), r.is_ready = false →
        (!r.hasRelation || b) = true →
        r.evaluate_relation b = some ("Missing required " ++ r.endpoint)) ∧
    (∀ (r : Requirer) (b : Bool), r.is_ready = false →
        r.hasRelation = true → b = false →
        r.evaluate_relation b = some ("Waiting for " ++ r.endpoint)) ∧
    (∀ (r : RawMap) (ep : String),
        (r.auth_url = none ∨ r.password = none ∨
         r.project_domain_name = none ∨ r.project_name = none ∨
         r.region = none ∨ r.username = none ∨ r.user_domain_name = none) →
        Requirer.is_ready ⟨ep, true, some r⟩ = false ∧
        ∀ b, Requirer.evaluate_relation ⟨ep, true, some r⟩ b ≠ none) ∧
    (∀ (r : Requirer) (raw : RawMap) (e : String), r.raw_data = some raw →
        Construct raw = .error e → r.is_ready = false) := by
  refine ⟨?_, ?_, ?_, ?_, ?_⟩
  · intro r b
    cases hr : r.is_ready with
    | true => simp [Requirer.evaluate_relation, hr]
    | false =>
      simp only [Requirer.evaluate_relation, hr, Bool.not_false, if_true]
      split_ifs <;> simp
  · intro r b h hb
    simp [Requirer.evaluate_relation, h, hb]
  · intro r b h hrel hb
    simp [Requirer.evaluate_relation, h, hrel, hb]
  · intro r ep h
    have hfail : (Construct r).isOk = false := by
      apply construct_fails_of_required_bad
      rcases h with hc | hc | hc | hc | hc | hc | hc <;> simp [hc]
    refine ⟨is_ready_false_of_construct_err ep hfail, ?_⟩
    intro b
    simp only [Requirer.evaluate_relation,
      is_ready_false_of_construct_err ep hfail, Bool.not_false, if_true]
    split_ifs <;> simp
  · intro r raw e hraw he
    unfold Requirer.is_ready Requirer.dataE
    rw [hraw]
    by_cases hne : raw = emptyRawMap
    · simp [hne]
    · simp [hne, he, Except.map]

/-- C7 witness: every branch of `evaluate_relation` and the readiness
checks exercised on concrete requirer states. -/
theorem C7_evaluate_relation_witness :
    Requirer.evaluate_relation ⟨"openstack", true, some rawOk⟩ false = none ∧
    Requirer.evaluate_relation ⟨"openstack", false, none⟩ false =
      some ("Missing required " ++ "openstack") ∧
    Requirer.evaluate_relation ⟨"openstack", true, some rawMissingUser⟩ false =
      some ("Waiting for " ++ "openstack") ∧
    Requirer.is_ready ⟨"openstack", true, some rawMissingUser⟩ = false ∧
    Requirer.evaluate_relation ⟨"openstack", true, some rawMissingUser⟩ true ≠ none ∧
    Requirer.is_ready ⟨"openstack", true, some rawCaNull⟩ = false := by
  refine ⟨?_, ?_, ?_, ?_, ?_, ?_⟩
  · exact (C7_evaluate_relation.1 ⟨"openstack", true, some rawOk⟩ false).mpr
      (by decide)
  · exact C7_evaluate_relation.2.1 ⟨"openstack", false, none⟩ false
      (by decide) (by decide)
  · exact C7_evaluate_relation.2.2.1 ⟨"openstack", true, some rawMissingUser⟩
      false (by decide) rfl rfl
  · exact (C7_evaluate_relation.2.2.2.1 rawMissingUser "openstack"
      (Or.inr (Or.inr (Or.inr (Or.inr (Or.inr (Or.inl rfl))))))).1
  · exact (C7_evaluate_relation.2.2.2.1 rawMissingUser "openstack"
      (Or.inr (Or.inr (Or.inr (Or.inr (Or.inr (Or.inl rfl))))))).2 true
  · exact C7_evaluate_relation.2.2.2.2 ⟨"openstack", true, some rawCaNull⟩
      rawCaNull
      "argument should be a bytes-like object or ASCII string, not NoneType"
      (by rfl) (by rfl)

/-- C10: emission of `[Global]` keys is guarded by Python truthiness, not
presence: a databag whose required fields are present as (possibly empty)
JSON strings constructs successfully and the façade is ready (the
readiness check only tests fields for non-`None`), yet a record whose
`auth_url` (resp. `username`) is the empty string omits the `auth-url`
(resp. `username`) key from the rendered `[Global]` section entirely. -/
theorem C10_truthiness_guard :
    (∀ (r : RawMap) (ep : String), ValidRawLax r →
        (Construct r).isOk = true ∧
        Requirer.is_ready ⟨ep, true, some r⟩ = true) ∧
    (∀ d : Data, d.auth_url = "" →
        "auth-url" ∉ d.globalSection.map Prod.fst) ∧
    (∀ d : Data, d.username = "" →
        "username" ∉ d.globalSection.map Prod.fst) := by
  refine ⟨?_, ?_, ?_⟩
  · intro r ep h
    have hok := Construct_ok_of_validLax h
    refine ⟨hok, ?_⟩
    obtain ⟨d, hd⟩ := exceptIsOk_iff.mp hok
    obtain ⟨s, hs⟩ := h.1
    exact is_ready_true_of_construct_ok ep (ne_empty_of_auth_url hs) hd
  · intro d h
    simp only [Data.globalSection, h, List.append_assoc]
    rw [if_neg (show ¬(("" : String) ≠ "") from by simp)]
    simp only [List.nil_append]
    exact key_not_mem_if_append (by decide) (key_not_mem_if_append (by decide)
      (key_not_mem_if_append (by decide) (key_not_mem_if_append (by decide)
      (key_not_mem_if_append (by decide) (key_not_mem_if_append (by decide)
      (key_not_mem_if_append (by decide) (key_not_mem_if_append (by decide)
      (key_not_mem_if_append (by decide) (key_not_mem_if_append (by decide)
      (key_not_mem_if_append (by decide)
        (key_not_mem_if_single (by decide))))))))))))
  · intro d h
    simp only [Data.globalSection, h, List.append_assoc]
    rw [if_neg (show ¬(("" : String) ≠ "") from by simp)]
    simp only [List.nil_append]
    exact key_not_mem_if_append (by decide) (key_not_mem_if_append (by decide)
      (key_not_mem_if_append (by decide) (key_not_mem_if_append (by decide)
      (key_not_mem_if_append (by decide) (key_not_mem_if_append (by decide)
      (key_not_mem_if_append (by decide) (key_not_mem_if_append (by decide)
      (key_not_mem_if_append (by decide) (key_not_mem_if_append (by decide)
      (key_not_mem_if_append (by decide)
        (key_not_mem_if_single (by decide))))))))))))

/-- C10 witness: the empty-`auth_url` databag constructs and is ready,
and concrete records with empty `auth_url`/`username` omit those keys. -/
theorem C10_truthiness_guard_witness :
    ((Construct rawEmptyAuth).isOk = true ∧
      Requirer.is_ready ⟨"openstack", true, some rawEmptyAuth⟩ = true) ∧
    "auth-url" ∉ (Data.globalSection { dataOk with auth_url := "" }).map Prod.fst ∧
    "username" ∉ (Data.globalSection { dataOk with username := "" }).map Prod.fst :=
  ⟨C10_truthiness_guard.1 rawEmptyAuth "openstack"
    ⟨⟨_, rfl⟩, ⟨_, rfl⟩, ⟨_, rfl⟩, ⟨_, rfl⟩, ⟨_, rfl⟩, ⟨_, rfl⟩, ⟨_, rfl⟩,
     Or.inl rfl, Or.inl rfl, Or.inl rfl, Or.inl rfl, Or.inl rfl,
     Or.inl rfl, Or.inl rfl, Or.inl rfl, Or.inl rfl, Or.inl rfl,
     Or.inl rfl, Or.inl rfl, Or.inl rfl, Or.inl rfl, Or.inl rfl,
     Or.inl rfl, Or.inl rfl, Or.inl rfl⟩,
   C10_truthiness_guard.2.1 { dataOk with auth_url := "" } rfl,
   C10_truthiness_guard.2.2 { dataOk with username := "" } rfl⟩
